import Mathlib

/-!
Shallow embedding of the Library Asset Synchronization Engine of
`src/server/src/domain/library/library.service.ts`.

The service methods are modelled as pure functions from an environment
(filesystem stat, crawler, sidecar existence check, hash, clock) and a
catalog state (libraries, assets, users) to an outcome: a result
(`Except` models a thrown `BadRequestException`), the successor state,
and the list of jobs pushed onto the task queue, in order.
-/

/-- Asset media type, from `AssetType` in `@app/infra/entities`. -/
inductive AssetType where
  | IMAGE
  | VIDEO
deriving DecidableEq, Repr

/-- Library type, from `LibraryType` in `@app/infra/entities`. -/
inductive LibraryType where
  | EXTERNAL
  | UPLOAD
deriving DecidableEq, Repr

/-- Filesystem stat result; `mtime` is milliseconds since the epoch.
Two `Date`s have equal `toISOString()` renderings exactly when their
epoch values agree, so the mtime comparison in the source is integer
equality here. -/
structure Stats where
  mtime : Int
deriving DecidableEq, Repr

/-- An asset catalog record, with the fields the reviewed slice reads or
writes. -/
structure Asset where
  id : Nat
  ownerId : Nat
  libraryId : Nat
  originalPath : String
  checksum : String
  assetType : AssetType
  fileCreatedAt : Int
  fileModifiedAt : Int
  localDateTime : Int
  isOffline : Bool
  isReadOnly : Bool
  isExternal : Bool
  sidecarPath : Option String
  deviceAssetId : String
  deviceId : String
  originalFileName : String
deriving DecidableEq, Repr

/-- A library row. `deletedAt` is the soft-deletion timestamp. -/
structure Library where
  id : Nat
  ownerId : Nat
  libType : LibraryType
  name : String
  importPaths : List String
  exclusionPatterns : List String
  isVisible : Bool
  refreshedAt : Option Int
  deletedAt : Option Int
deriving DecidableEq, Repr

/-- A user row, with the one field the reviewed slice reads. -/
structure User where
  id : Nat
  externalPath : Option String
deriving DecidableEq, Repr

/-- The persisted state the service reads and writes: library rows,
asset rows and user rows, plus the id counter the catalog uses for new
assets. -/
structure State where
  libraries : List Library
  assets : List Asset
  users : List User
  nextAssetId : Nat
deriving DecidableEq, Repr

/-- Jobs pushed onto the task queue, from `JobName` with their payloads.  -/
inductive Job where
  | libraryScan (id : Nat) (refreshModifiedFiles refreshAllFiles : Bool)
  | libraryScanAsset (id : Nat) (assetPath : String) (ownerId : Nat) (force : Bool)
  | libraryMarkAssetOffline (id : Nat) (assetPath : String)
  | libraryDelete (id : Nat)
  | libraryQueueCleanup
  | libraryRemoveOffline (id : Nat)
  | metadataExtraction (id : Nat)
  | videoConversion (id : Nat)
  | assetDeletion (id : Nat) (fromExternal : Bool)
deriving DecidableEq, Repr

instance : DecidableEq (Except String Bool) := fun x y =>
  match x, y with
  | .ok a, .ok b =>
    if h : a = b then .isTrue (congrArg _ h)
    else .isFalse (fun hh => h (Except.ok.inj hh))
  | .ok _, .error _ => .isFalse (fun hh => Except.noConfusion hh)
  | .error _, .ok _ => .isFalse (fun hh => Except.noConfusion hh)
  | .error a, .error b =>
    if h : a = b then .isTrue (congrArg _ h)
    else .isFalse (fun hh => h (Except.error.inj hh))

/-- Result of one handler invocation: the returned value (or the thrown
`BadRequestException` message), the state after all catalog writes the
handler performed, and the queued jobs in order. -/
structure Outcome where
  result : Except String Bool
  state : State
  jobs : List Job
deriving DecidableEq, Repr

/-- The external collaborators: `storageRepository.stat` (`none` models a
thrown stat error), `storageRepository.checkFileExists`,
`storageRepository.crawl`, `cryptoRepository.hashSha1`, and the clock
read by `new Date()`. -/
structure Env where
  stat : String → Option Stats
  checkFileExists : String → Bool
  crawl : List String → List String → List String
  hashSha1 : String → String
  now : Int

/-! ### Node `path` (posix) helpers

The service runs on the posix `path` module.  `path.normalize` splits on
the separator, drops empty and `.` segments, resolves `..` (which may
climb above the start only for relative paths), and restores leading and
trailing separators. -/

/-- Split a character list on `/`, keeping empty segments, as
`p.split("/")` does. -/
def splitOnSlash : List Char → List (List Char)
  | [] => [[]]
  | c :: rest =>
    let r := splitOnSlash rest
    if c = '/' then [] :: r
    else
      match r with
      | [] => [[c]]
      | h :: t => (c :: h) :: t

/-- One step of segment resolution for `path.normalize`. -/
def normalizeStep (allowAboveRoot : Bool) (acc : List (List Char)) (seg : List Char) :
    List (List Char) :=
  if seg = [] || seg = ['.'] then acc
  else if seg = ['.', '.'] then
    if acc ≠ [] && acc.getLast? ≠ some ['.', '.'] then acc.dropLast
    else if allowAboveRoot then acc ++ [['.', '.']]
    else acc
  else acc ++ [seg]

/-- Resolve `.` and `..` segments as Node `normalizeString` does. -/
def normalizeSegs (allowAboveRoot : Bool) (segs : List (List Char)) : List (List Char) :=
  segs.foldl (normalizeStep allowAboveRoot) []

/-- Join segments with `/`. -/
def joinSlash : List (List Char) → List Char
  | [] => []
  | [x] => x
  | x :: xs => x ++ '/' :: joinSlash xs

/-- Node posix `path.normalize`. -/
def pathNormalize (p : String) : String :=
  let cs := p.toList
  if cs = [] then "."
  else
    let isAbs := cs.head? = some '/'
    let trailing := cs.getLast? = some '/'
    let core := joinSlash (normalizeSegs (!isAbs) (splitOnSlash cs))
    if core = [] then
      if isAbs then "/" else if trailing then "./" else "."
    else
      let core := if trailing then core ++ ['/'] else core
      if isAbs then String.mk ('/' :: core) else String.mk core

/-- Node posix `basename`: the final path segment (trailing separators
stripped). -/
def basename (p : String) : String :=
  match ((splitOnSlash p.toList).filter (fun seg => seg ≠ [])).getLast? with
  | some seg => String.mk seg
  | none => p

/-- Index of the last dot of a character list, if any. -/
def lastDotIndex (cs : List Char) : Option Nat :=
  let tail := (cs.reverse.takeWhile (fun c => c ≠ '.')).length
  if tail = cs.length then none else some (cs.length - 1 - tail)

/-- Node posix `extname`: the suffix of the basename from its last dot,
empty when there is no dot or the dot is the leading character. -/
def extname (p : String) : String :=
  let cs := (basename p).toList
  match lastDotIndex cs with
  | none => ""
  | some 0 => ""
  | some i => String.mk (cs.drop i)

/-- Node posix `parse(p).name`: the basename with `extname` removed. -/
def parseName (p : String) : String :=
  let cs := (basename p).toList
  match lastDotIndex cs with
  | none => String.mk cs
  | some 0 => String.mk cs
  | some i => String.mk (cs.take i)

/-- `replace(/\s+/g, "")`: drop all whitespace characters. -/
def removeWhitespace (sIn : String) : String :=
  String.mk (sIn.toList.filter (fun c => !c.isWhitespace))

/-! ### MIME classification

`mimeTypes.isImage` / `mimeTypes.isVideo` live in
`domain.constant.ts`, outside the reviewed files. -/

/-- Modelled from the spec: "Classify file type from extension via a
MIME-type table" — image extensions of the MIME table, matched on the
lowercased `extname`. -/
def imageExtensions : List String :=
  [".jpg", ".jpeg", ".png", ".gif", ".webp", ".tiff", ".heic", ".heif", ".dng", ".raw"]

/-- Modelled from the spec: video extensions of the MIME table. -/
def videoExtensions : List String :=
  [".mp4", ".mov", ".avi", ".mkv", ".webm", ".mpg", ".flv", ".wmv", ".3gp", ".m2ts"]

/-- Lowercase a string character by character. -/
def lowercase (sIn : String) : String :=
  String.mk (sIn.toList.map Char.toLower)

/-- Modelled from the spec: `mimeTypes.isImage` — lookup of the
lowercased extension in the image table. -/
def isImage (p : String) : Bool :=
  imageExtensions.contains (lowercase (extname p))

/-- Modelled from the spec: `mimeTypes.isVideo`. -/
def isVideo (p : String) : Bool :=
  videoExtensions.contains (lowercase (extname p))

/-- The `if isImage / else if isVideo / else throw` classification chain
of `handleAssetRefresh`, as a partial map: `none` is the
unsupported-file-type throw. -/
def classify (p : String) : Option AssetType :=
  if isImage p then some AssetType.IMAGE
  else if isVideo p then some AssetType.VIDEO
  else none

/-! ### Containment check

Both `handleAssetRefresh` and `handleQueueAssetRefresh` test a path
against `new RegExp("^" + normalizedExternalPath)`.  A regex anchored at
the start whose body is a metacharacter-free literal matches exactly the
strings that start with that literal, so the check is embedded as a
string-prefix test. -/

/-- The anchored-regex containment test of the source: does the
(already normalized) asset path start with the normalized external root
string? -/
def matchesExternalRoot (normalizedRoot assetPath : String) : Bool :=
  List.isPrefixOf normalizedRoot.toList assetPath.toList

/-- Follows the spec text, not the source: a path "lies under the
user's external root" when it is the root itself or sits inside the
root directory (the root followed by a separator is a prefix).  Compared
against `matchesExternalRoot` for claim C1. -/
def liesUnder (normalizedRoot p : String) : Bool :=
  p = normalizedRoot || List.isPrefixOf (normalizedRoot.toList ++ ['/']) p.toList

/-! ### Catalog and repository operations -/

/-- `libraryRepository.get(id, withDeleted)`: the row with this id,
hidden when soft-deleted unless `withDeleted`. -/
def getLibrary (s : State) (id : Nat) (withDeleted : Bool) : Option Library :=
  (s.libraries.find? (fun l => l.id = id)).filter
    (fun l => withDeleted || l.deletedAt = none)

/-- `userRepository.get(id)`. -/
def getUser (s : State) (id : Nat) : Option User :=
  s.users.find? (fun u => u.id = id)

/-- `assetRepository.getByLibraryIdAndOriginalPath(libraryId, path)`. -/
def getAssetByLibraryAndPath (s : State) (libraryId : Nat) (p : String) : Option Asset :=
  s.assets.find? (fun a => a.libraryId = libraryId && a.originalPath = p)

/-- `assetRepository.save({ id, isOffline })`: partial update of the
offline flag by asset id. -/
def saveAssetIsOffline (s : State) (assetId : Nat) (flag : Bool) : State :=
  { s with assets := s.assets.map (fun a =>
      if a.id = assetId then { a with isOffline := flag } else a) }

/-- `assetRepository.updateAll([id], { fileCreatedAt, fileModifiedAt })`. -/
def updateAssetTimes (s : State) (assetId : Nat) (t : Int) : State :=
  { s with assets := s.assets.map (fun a =>
      if a.id = assetId then { a with fileCreatedAt := t, fileModifiedAt := t } else a) }

/-- `assetRepository.create(...)`: append a row under a fresh id and
return it. -/
def createAsset (s : State) (a : Asset) : State × Nat :=
  let newId := s.nextAssetId
  ({ s with
      assets := s.assets ++ [{ a with id := newId }],
      nextAssetId := newId + 1 },
   newId)

/-- `assetRepository.getByLibraryId([id])`. -/
def getAssetsByLibraryId (s : State) (libraryId : Nat) : List Asset :=
  s.assets.filter (fun a => a.libraryId = libraryId)

/-- `libraryRepository.getOnlineAssetPaths(libraryId)`: original paths
of the library's assets that are not flagged offline (spec: "set
difference against currently online asset paths"). -/
def getOnlineAssetPaths (s : State) (libraryId : Nat) : List String :=
  (s.assets.filter (fun a => a.libraryId = libraryId && !a.isOffline)).map
    (fun a => a.originalPath)

/-- `libraryRepository.getAllDeleted()`: rows with `deletedAt` set. -/
def getAllDeletedLibraries (s : State) : List Library :=
  s.libraries.filter (fun l => l.deletedAt ≠ none)

/-- `libraryRepository.delete(id)`: hard-remove the row. -/
def deleteLibraryRow (s : State) (id : Nat) : State :=
  { s with libraries := s.libraries.filter (fun l => l.id ≠ id) }

/-- `libraryRepository.softDelete(id)`: set `deletedAt`. -/
def softDeleteLibrary (s : State) (id : Nat) (now : Int) : State :=
  { s with libraries := s.libraries.map (fun l =>
      if l.id = id then { l with deletedAt := some now } else l) }

/-- `libraryRepository.update({ id, refreshedAt })`. -/
def updateLibraryRefreshedAt (s : State) (id : Nat) (now : Int) : State :=
  { s with libraries := s.libraries.map (fun l =>
      if l.id = id then { l with refreshedAt := some now } else l) }

/-- `libraryRepository.getUploadLibraryCount(ownerId)`: number of
non-deleted UPLOAD libraries of this owner. -/
def getUploadLibraryCount (s : State) (ownerId : Nat) : Nat :=
  (s.libraries.filter (fun l =>
      l.ownerId = ownerId && l.libType = LibraryType.UPLOAD && l.deletedAt = none)).length

/-! ### Job payloads -/

/-- `ILibraryFileJob`: the per-path job payload. -/
structure LibraryFileJob where
  id : Nat
  ownerId : Nat
  assetPath : String
  force : Bool
deriving DecidableEq, Repr

/-- `ILibraryRefreshJob`: the full-library scan payload. -/
structure LibraryRefreshJob where
  id : Nat
  refreshModifiedFiles : Bool
  refreshAllFiles : Bool
deriving DecidableEq, Repr

/-- `IEntityJob`. -/
structure EntityJob where
  id : Nat
deriving DecidableEq, Repr

/-! ### The service handlers -/

/-- The record `handleAssetRefresh` passes to `assetRepository.create`
on the import branch (id filled in by the catalog). -/
def importedAssetRecord (env : Env) (job : LibraryFileJob) (st : Stats) (t : AssetType) :
    Asset :=
  let assetPath := pathNormalize job.assetPath
  { id := 0
    ownerId := job.ownerId
    libraryId := job.id
    checksum := env.hashSha1 ("path:" ++ assetPath)
    originalPath := assetPath
    assetType := t
    fileCreatedAt := st.mtime
    fileModifiedAt := st.mtime
    localDateTime := st.mtime
    isOffline := false
    isReadOnly := true
    isExternal := true
    sidecarPath :=
      if env.checkFileExists (assetPath ++ ".xmp") then some (assetPath ++ ".xmp") else none
    deviceAssetId := removeWhitespace (basename assetPath)
    deviceId := "Library Import"
    originalFileName := parseName assetPath }

/-- `LibraryService.handleAssetRefresh` (the per-path `processPath`
handler), line by line from the source.  `Except.error` models a thrown
`BadRequestException`; `.ok b` models `return b`. -/
def handleAssetRefresh (env : Env) (s : State) (job : LibraryFileJob) : Outcome :=
  let assetPath := pathNormalize job.assetPath
  match getUser s job.ownerId with
  | none => ⟨.ok false, s, []⟩
  | some user =>
    match user.externalPath with
    | none => ⟨.ok false, s, []⟩
    | some externalPath =>
      if !matchesExternalRoot (pathNormalize externalPath) (pathNormalize assetPath) then
        ⟨.ok false, s, []⟩
      else
        let existingAssetEntity := getAssetByLibraryAndPath s job.id assetPath
        match env.stat assetPath with
        | none =>
          -- stat threw: file unreachable
          match existingAssetEntity with
          | some existing => ⟨.ok true, saveAssetIsOffline s existing.id true, []⟩
          | none => ⟨.error "Cannot access file", s, []⟩
        | some stats =>
          let doImport := existingAssetEntity.isNone
          let doRefreshMtime :=
            match existingAssetEntity with
            | none => false
            | some existing => stats.mtime != existing.fileModifiedAt
          let offlineRecovery :=
            match existingAssetEntity with
            | none => false
            | some existing => existing.isOffline
          -- previously-offline asset is saved back online before anything else
          let s1 :=
            match existingAssetEntity with
            | some existing =>
              if existing.isOffline then saveAssetIsOffline s existing.id false else s
            | none => s
          let doRefresh := job.force || doRefreshMtime || offlineRecovery
          if !doImport && !doRefresh then ⟨.ok true, s1, []⟩
          else
            match classify assetPath with
            | none => ⟨.error ("Unsupported file type " ++ assetPath), s1, []⟩
            | some assetType =>
              let downstream := fun (assetId : Nat) =>
                Job.metadataExtraction assetId ::
                  (if assetType = AssetType.VIDEO then [Job.videoConversion assetId] else [])
              let doImportAsset : Outcome :=
                let res := createAsset s1 (importedAssetRecord env job stats assetType)
                ⟨.ok true, res.1, downstream res.2⟩
              if doImport then
                match getLibrary s1 job.id true with
                | some library =>
                  if library.deletedAt ≠ none then ⟨.ok false, s1, []⟩
                  else doImportAsset
                | none => doImportAsset
              else
                match existingAssetEntity, doRefresh with
                | some existing, true =>
                  ⟨.ok true, updateAssetTimes s1 existing.id stats.mtime,
                    downstream existing.id⟩
                | _, _ => ⟨.ok true, s1, []⟩

/-- The crawl step of `handleQueueAssetRefresh`: crawl the import paths
under the exclusion patterns, normalize every result, and keep only the
paths matching the anchored external-root regex. -/
def crawledAssetPathsOf (env : Env) (library : Library) (externalPath : String) : List String :=
  ((env.crawl library.importPaths library.exclusionPatterns).map pathNormalize).filter
    (fun assetPath => matchesExternalRoot (pathNormalize externalPath) assetPath)

/-- `LibraryService.handleQueueAssetRefresh` (the `scanLibrary`
handler): crawl, containment filter, offline-mark fan-out, per-path
fan-out, and the `refreshedAt` write. -/
def handleQueueAssetRefresh (env : Env) (s : State) (job : LibraryRefreshJob) : Outcome :=
  match getLibrary s job.id false with
  | none => ⟨.ok false, s, []⟩
  | some library =>
    if library.libType ≠ LibraryType.EXTERNAL then ⟨.ok false, s, []⟩
    else
      match getUser s library.ownerId with
      | none => ⟨.ok false, s, []⟩
      | some user =>
        match user.externalPath with
        | none => ⟨.ok false, s, []⟩
        | some externalPath =>
          let crawledAssetPaths := crawledAssetPathsOf env library externalPath
          let assetsInLibrary := getAssetsByLibraryId s job.id
          let offlineAssets :=
            assetsInLibrary.filter (fun a => a.originalPath ∉ crawledAssetPaths)
          let offlineJobs :=
            offlineAssets.map (fun a => Job.libraryMarkAssetOffline job.id a.originalPath)
          let scanJobs :=
            if crawledAssetPaths.length > 0 then
              let filteredPaths :=
                if job.refreshAllFiles || job.refreshModifiedFiles then crawledAssetPaths
                else
                  let existingPaths := getOnlineAssetPaths s job.id
                  crawledAssetPaths.filter (fun assetPath => assetPath ∉ existingPaths)
              filteredPaths.map (fun assetPath =>
                Job.libraryScanAsset job.id (pathNormalize assetPath) library.ownerId
                  job.refreshAllFiles)
            else []
          ⟨.ok true, updateLibraryRefreshedAt s job.id env.now, offlineJobs ++ scanJobs⟩

/-- `LibraryService.handleDeleteLibrary`: per-asset deletion fan-out;
the row is hard-deleted only when the library holds no assets. -/
def handleDeleteLibrary (s : State) (job : EntityJob) : Outcome :=
  match getLibrary s job.id true with
  | none => ⟨.ok false, s, []⟩
  | some _ =>
    let assetIds := (getAssetsByLibraryId s job.id).map (fun a => a.id)
    let jobs := assetIds.map (fun assetId => Job.assetDeletion assetId true)
    if assetIds.length = 0 then ⟨.ok true, deleteLibraryRow s job.id, jobs⟩
    else ⟨.ok true, s, jobs⟩

/-- `LibraryService.handleQueueCleanup`: re-enqueue deletion of every
library still soft-deleted. -/
def handleQueueCleanup (s : State) : Outcome :=
  ⟨.ok true, s, (getAllDeletedLibraries s).map (fun l => Job.libraryDelete l.id)⟩

/-- `LibraryService.delete` after the (out-of-scope) permission check:
`authUserId` is the requesting user, which the access layer constrains
to the owner.  Rejects removing the last UPLOAD library, otherwise
soft-deletes and queues `LIBRARY_DELETE`. -/
def delete (env : Env) (s : State) (authUserId : Nat) (id : Nat) : Outcome :=
  match getLibrary s id false with
  | none => ⟨.error "Library not found", s, []⟩
  | some library =>
    let uploadCount := getUploadLibraryCount s authUserId
    if library.libType = LibraryType.UPLOAD ∧ uploadCount ≤ 1 then
      ⟨.error "Cannot delete the last upload library", s, []⟩
    else
      ⟨.ok true, softDeleteLibrary s id env.now, [Job.libraryDelete id]⟩

/-- Well-formedness of the downstream fan-out of one
`handleAssetRefresh` call: either no job, or exactly one
metadata-extraction job (only for a non-VIDEO classification), or a
metadata-extraction job followed by a video-conversion job for the same
asset id (only for a VIDEO classification). -/
def fanoutOk (cls : Option AssetType) : List Job → Bool
  | [] => true
  | [Job.metadataExtraction _] => cls != some AssetType.VIDEO
  | [Job.metadataExtraction a, Job.videoConversion b] =>
    a = b && cls = some AssetType.VIDEO
  | _ => false

/-! ### Concrete fixtures used by the witnesses and counterexamples -/

/-- A filesystem with two files under the external root `/data/photos`. -/
def envW : Env :=
  { stat := fun p =>
      if p = "/data/photos/a.jpg" then some ⟨100⟩
      else if p = "/data/photos/b.mp4" then some ⟨200⟩
      else none
    checkFileExists := fun _ => false
    crawl := fun _ _ => ["/data/photos/a.jpg", "/data/photos/b.mp4"]
    hashSha1 := fun _ => "hash"
    now := 50 }

/-- An EXTERNAL library owned by user 2. -/
def libW : Library :=
  { id := 1, ownerId := 2, libType := .EXTERNAL, name := "L",
    importPaths := ["/data/photos"], exclusionPatterns := [],
    isVisible := true, refreshedAt := none, deletedAt := none }

/-- An online IMAGE asset already imported at `/data/photos/a.jpg`. -/
def assetA : Asset :=
  { id := 10, ownerId := 2, libraryId := 1, originalPath := "/data/photos/a.jpg",
    checksum := "hash", assetType := .IMAGE,
    fileCreatedAt := 100, fileModifiedAt := 100, localDateTime := 100,
    isOffline := false, isReadOnly := true, isExternal := true,
    sidecarPath := none, deviceAssetId := "a.jpg", deviceId := "Library Import",
    originalFileName := "a" }

/-- An online VIDEO asset already imported at `/data/photos/b.mp4`. -/
def assetB : Asset :=
  { id := 11, ownerId := 2, libraryId := 1, originalPath := "/data/photos/b.mp4",
    checksum := "hash", assetType := .VIDEO,
    fileCreatedAt := 200, fileModifiedAt := 200, localDateTime := 200,
    isOffline := false, isReadOnly := true, isExternal := true,
    sidecarPath := none, deviceAssetId := "b.mp4", deviceId := "Library Import",
    originalFileName := "b" }

/-- Owner of the library, external root `/data/photos`. -/
def userW : User := ⟨2, some "/data/photos"⟩

/-- State with one asset, `assetA`, in the library. -/
def sW : State :=
  { libraries := [libW], assets := [assetA], users := [userW], nextAssetId := 20 }

/-- State where both crawled files are already online assets. -/
def sW2 : State :=
  { libraries := [libW], assets := [assetA, assetB], users := [userW], nextAssetId := 20 }

/-- An offline asset recorded at a path whose extension is in neither
MIME table. -/
def assetTxt : Asset :=
  { id := 12, ownerId := 2, libraryId := 1, originalPath := "/data/photos/c.txt",
    checksum := "hash", assetType := .IMAGE,
    fileCreatedAt := 300, fileModifiedAt := 300, localDateTime := 300,
    isOffline := true, isReadOnly := true, isExternal := true,
    sidecarPath := none, deviceAssetId := "c.txt", deviceId := "Library Import",
    originalFileName := "c" }

/-- State holding the unsupported-extension offline asset. -/
def sTxt : State :=
  { libraries := [libW], assets := [assetTxt], users := [userW], nextAssetId := 20 }

/-- Filesystem on which `/data/photos/c.txt` is reachable again. -/
def envTxt : Env :=
  { stat := fun p => if p = "/data/photos/c.txt" then some ⟨300⟩ else none
    checkFileExists := fun _ => false
    crawl := fun _ _ => []
    hashSha1 := fun _ => "hash"
    now := 50 }

/-- A soft-deleted EXTERNAL library awaiting purge. -/
def libDel : Library :=
  { id := 9, ownerId := 2, libType := .EXTERNAL, name := "D",
    importPaths := ["/data/photos"], exclusionPatterns := [],
    isVisible := true, refreshedAt := none, deletedAt := some 33 }

/-- An asset still owned by the soft-deleted library. -/
def asset9 : Asset := { assetA with id := 13, libraryId := 9 }

/-- Soft-deleted library that still holds one asset. -/
def sC5 : State :=
  { libraries := [libDel], assets := [asset9], users := [userW], nextAssetId := 20 }

/-- Soft-deleted library with no assets left. -/
def sC5e : State :=
  { libraries := [libDel], assets := [], users := [userW], nextAssetId := 20 }

/-- The sole UPLOAD library of user 2. -/
def libU : Library :=
  { id := 5, ownerId := 2, libType := .UPLOAD, name := "U",
    importPaths := [], exclusionPatterns := [],
    isVisible := true, refreshedAt := none, deletedAt := none }

/-- State where user 2 owns exactly one UPLOAD library. -/
def sC6 : State :=
  { libraries := [libU], assets := [], users := [userW], nextAssetId := 0 }

/-- The external library soft-deleted mid-import. -/
def sC7 : State :=
  { libraries := [{ libW with deletedAt := some 40 }], assets := [], users := [userW],
    nextAssetId := 30 }

/-- Library with no assets yet: the import fixture. -/
def sImp : State :=
  { libraries := [libW], assets := [], users := [userW], nextAssetId := 30 }

/-- User whose external root `/data/ph` is a string prefix of the
sibling directory `/data/photos2`. -/
def userPh : User := ⟨4, some "/data/ph"⟩

/-- EXTERNAL library of the `/data/ph` user. -/
def libPh : Library :=
  { id := 7, ownerId := 4, libType := .EXTERNAL, name := "P",
    importPaths := ["/data"], exclusionPatterns := [],
    isVisible := true, refreshedAt := none, deletedAt := none }

/-- Empty catalog for the `/data/ph` user. -/
def sPh : State :=
  { libraries := [libPh], assets := [], users := [userPh], nextAssetId := 60 }

/-- Filesystem holding a file in `/data/photos2`, outside the root
directory `/data/ph` but sharing it as a string prefix. -/
def envPh : Env :=
  { stat := fun p => if p = "/data/photos2/evil.jpg" then some ⟨500⟩ else none
    checkFileExists := fun _ => false
    crawl := fun _ _ => ["/data/photos2/evil.jpg"]
    hashSha1 := fun _ => "hash"
    now := 77 }

/-- The scan validation fails late: the library exists and is EXTERNAL
but its owner has no external path configured. -/
def sC8 : State :=
  { libraries := [libW], assets := [], users := [⟨2, none⟩], nextAssetId := 0 }

/-- Filesystem on which `/data/photos/b.mp4` has a changed mtime. -/
def envMod : Env :=
  { stat := fun p => if p = "/data/photos/b.mp4" then some ⟨201⟩ else none
    checkFileExists := fun _ => false
    crawl := fun _ _ => []
    hashSha1 := fun _ => "hash"
    now := 50 }

/-! ### Claims -/

/-- Claim C2: a no-change re-run is a no-op.  First part: running
`handleAssetRefresh` on an existing, non-offline asset with unchanged
stat mtime and `force = false` leaves the state untouched and queues
nothing.  Second part: a scan with both refresh flags false, run when
every crawled path is already an online asset path of the library (the
state a completed first scan leaves behind), queues only offline-mark
jobs — zero per-path import/refresh jobs. -/
theorem c2_norun_is_noop :
    (∀ env s job user root existing st,
      getUser s job.ownerId = some user →
      user.externalPath = some root →
      matchesExternalRoot (pathNormalize root)
        (pathNormalize (pathNormalize job.assetPath)) = true →
      getAssetByLibraryAndPath s job.id (pathNormalize job.assetPath) = some existing →
      env.stat (pathNormalize job.assetPath) = some st →
      existing.isOffline = false →
      st.mtime = existing.fileModifiedAt →
      job.force = false →
      handleAssetRefresh env s job = ⟨.ok true, s, []⟩) ∧
    (∀ env s job library user root,
      getLibrary s job.id false = some library →
      library.libType = LibraryType.EXTERNAL →
      getUser s library.ownerId = some user →
      user.externalPath = some root →
      job.refreshAllFiles = false →
      job.refreshModifiedFiles = false →
      (∀ p ∈ crawledAssetPathsOf env library root, p ∈ getOnlineAssetPaths s job.id) →
      (handleQueueAssetRefresh env s job).jobs =
        ((getAssetsByLibraryId s job.id).filter
            (fun a => a.originalPath ∉ crawledAssetPathsOf env library root)).map
          (fun a => Job.libraryMarkAssetOffline job.id a.originalPath)) := by
  constructor
  · intro env s job user root existing st hUser hRoot hMatch hExisting hStat hOnline hMtime hForce
    simp only [handleAssetRefresh, hUser, hRoot, hMatch, hExisting, hStat, hOnline, hMtime,
      hForce, Option.isNone_some, bne_self_eq_false, Bool.or_self, Bool.or_false,
      Bool.false_or, if_false, Bool.not_false, Bool.and_self, if_true]
    simp
  · intro env s job library user root hLib hType hUser hRoot hAll hMod hKnown
    have hScanNil :
        (crawledAssetPathsOf env library root).filter
          (fun assetPath => assetPath ∉ getOnlineAssetPaths s job.id) = [] := by
      rw [List.filter_eq_nil_iff]
      intro p hp
      simp [hKnown p hp]
    simp only [handleQueueAssetRefresh, hLib, hType, hUser, hRoot, hAll, hMod]
    simp [hScanNil]
    exact fun _ => hKnown

/-- Claim C2 witness: re-processing `/data/photos/a.jpg` (already an
online asset with the same mtime) changes nothing; re-scanning the
fully-imported library queues no per-path job. -/
theorem c2_norun_is_noop_witness :
    handleAssetRefresh envW sW ⟨1, 2, "/data/photos/a.jpg", false⟩ = ⟨.ok true, sW, []⟩ ∧
    (handleQueueAssetRefresh envW sW2 ⟨1, false, false⟩).jobs = [] := by
  constructor
  · exact c2_norun_is_noop.1 envW sW ⟨1, 2, "/data/photos/a.jpg", false⟩ userW "/data/photos"
      assetA ⟨100⟩ (by decide) (by decide) (by decide) (by decide) (by decide) (by decide)
      (by decide) (by decide)
  · exact (c2_norun_is_noop.2 envW sW2 ⟨1, false, false⟩ libW userW "/data/photos"
      (by decide) (by decide) (by decide) (by decide) (by decide) (by decide)
      (by decide)).trans (by decide)

/-- Claim C3: when stat fails, `handleAssetRefresh` marks a known asset
offline and succeeds, and for an unknown path throws a
`BadRequestException` (recoverable failure) without touching the
catalog; in both cases no job is queued. -/
theorem c3_stat_failure :
    (∀ env s job user root existing,
      getUser s job.ownerId = some user →
      user.externalPath = some root →
      matchesExternalRoot (pathNormalize root)
        (pathNormalize (pathNormalize job.assetPath)) = true →
      env.stat (pathNormalize job.assetPath) = none →
      getAssetByLibraryAndPath s job.id (pathNormalize job.assetPath) = some existing →
      handleAssetRefresh env s job =
        ⟨.ok true, saveAssetIsOffline s existing.id true, []⟩) ∧
    (∀ env s job user root,
      getUser s job.ownerId = some user →
      user.externalPath = some root →
      matchesExternalRoot (pathNormalize root)
        (pathNormalize (pathNormalize job.assetPath)) = true →
      env.stat (pathNormalize job.assetPath) = none →
      getAssetByLibraryAndPath s job.id (pathNormalize job.assetPath) = none →
      handleAssetRefresh env s job = ⟨.error "Cannot access file", s, []⟩) := by
  constructor
  · intro env s job user root existing hUser hRoot hMatch hStat hExisting
    simp only [handleAssetRefresh, hUser, hRoot, hMatch, hStat, hExisting]
    simp
  · intro env s job user root hUser hRoot hMatch hStat hExisting
    simp only [handleAssetRefresh, hUser, hRoot, hMatch, hStat, hExisting]
    simp

/-- Claim C3 witness: with the file unreachable, the known asset at
`/data/photos/a.jpg` is flagged offline with success, and the unknown
path `/data/photos/new.jpg` raises the recoverable error with the state
unchanged. -/
theorem c3_stat_failure_witness :
    handleAssetRefresh ⟨fun _ => none, fun _ => false, fun _ _ => [], fun _ => "h", 0⟩ sW
        ⟨1, 2, "/data/photos/a.jpg", false⟩ =
      ⟨.ok true, saveAssetIsOffline sW 10 true, []⟩ ∧
    handleAssetRefresh ⟨fun _ => none, fun _ => false, fun _ _ => [], fun _ => "h", 0⟩ sW
        ⟨1, 2, "/data/photos/new.jpg", false⟩ =
      ⟨.error "Cannot access file", sW, []⟩ := by
  constructor
  · exact c3_stat_failure.1 ⟨fun _ => none, fun _ => false, fun _ _ => [], fun _ => "h", 0⟩
      sW ⟨1, 2, "/data/photos/a.jpg", false⟩ userW "/data/photos" assetA
      (by decide) (by decide) (by decide) (by decide) (by decide)
  · exact c3_stat_failure.2 ⟨fun _ => none, fun _ => false, fun _ _ => [], fun _ => "h", 0⟩
      sW ⟨1, 2, "/data/photos/new.jpg", false⟩ userW "/data/photos"
      (by decide) (by decide) (by decide) (by decide) (by decide)

/-- Claim C4: an existing asset flagged offline whose stat now succeeds
is saved back online and refreshed — timestamps rewritten to the stat
mtime and exactly one metadata-extraction job queued (plus the video
job only for VIDEO) — even with the stat mtime equal to the stored
`fileModifiedAt` and `force = false`: presence alone triggers the
refresh. -/
theorem c4_offline_recovery :
    ∀ env s job user root existing st t,
      getUser s job.ownerId = some user →
      user.externalPath = some root →
      matchesExternalRoot (pathNormalize root)
        (pathNormalize (pathNormalize job.assetPath)) = true →
      getAssetByLibraryAndPath s job.id (pathNormalize job.assetPath) = some existing →
      env.stat (pathNormalize job.assetPath) = some st →
      existing.isOffline = true →
      st.mtime = existing.fileModifiedAt →
      job.force = false →
      classify (pathNormalize job.assetPath) = some t →
      handleAssetRefresh env s job =
        ⟨.ok true,
         updateAssetTimes (saveAssetIsOffline s existing.id false) existing.id st.mtime,
         Job.metadataExtraction existing.id ::
           (if t = AssetType.VIDEO then [Job.videoConversion existing.id] else [])⟩ := by
  intro env s job user root existing st t hUser hRoot hMatch hExisting hStat hOffline hMtime
    hForce hCls
  simp only [handleAssetRefresh, hUser, hRoot, hMatch, hExisting, hStat, hOffline, hMtime,
    hForce, hCls]
  simp

/-- Claim C4 witness: the offline copy of `/data/photos/a.jpg`
reappears unchanged; the asset is saved online, refreshed, and one
metadata-extraction job is queued. -/
theorem c4_offline_recovery_witness :
    handleAssetRefresh envW
        { libraries := [libW], assets := [{ assetA with isOffline := true }],
          users := [userW], nextAssetId := 20 }
        ⟨1, 2, "/data/photos/a.jpg", false⟩ =
      ⟨.ok true,
       updateAssetTimes
         (saveAssetIsOffline
           { libraries := [libW], assets := [{ assetA with isOffline := true }],
             users := [userW], nextAssetId := 20 } 10 false) 10 100,
       [Job.metadataExtraction 10]⟩ := by
  exact (c4_offline_recovery envW
    { libraries := [libW], assets := [{ assetA with isOffline := true }],
      users := [userW], nextAssetId := 20 }
    ⟨1, 2, "/data/photos/a.jpg", false⟩ userW "/data/photos" { assetA with isOffline := true }
    ⟨100⟩ AssetType.IMAGE (by decide) (by decide) (by decide) (by decide) (by decide)
    (by decide) (by decide) (by decide) (by decide)).trans (by decide)

/-- Claim C10: for an offline asset whose stat succeeds but whose
extension classifies as neither image nor video, the mark-online save
is persisted first and the unsupported-file-type error is raised
afterwards — the handler fails but the catalog state has already
changed. -/
theorem c10_mark_online_survives_unsupported :
    ∀ env s job user root existing st,
      getUser s job.ownerId = some user →
      user.externalPath = some root →
      matchesExternalRoot (pathNormalize root)
        (pathNormalize (pathNormalize job.assetPath)) = true →
      getAssetByLibraryAndPath s job.id (pathNormalize job.assetPath) = some existing →
      env.stat (pathNormalize job.assetPath) = some st →
      existing.isOffline = true →
      classify (pathNormalize job.assetPath) = none →
      handleAssetRefresh env s job =
        ⟨.error ("Unsupported file type " ++ pathNormalize job.assetPath),
         saveAssetIsOffline s existing.id false, []⟩ := by
  intro env s job user root existing st hUser hRoot hMatch hExisting hStat hOffline hCls
  simp only [handleAssetRefresh, hUser, hRoot, hMatch, hExisting, hStat, hOffline, hCls]
  simp

/-- Claim C10 witness: an offline asset recorded at
`/data/photos/c.txt` reappears; the handler saves it online, then
throws the unsupported-file-type error with the write kept. -/
theorem c10_mark_online_survives_unsupported_witness :
    handleAssetRefresh envTxt sTxt ⟨1, 2, "/data/photos/c.txt", false⟩ =
      ⟨.error "Unsupported file type /data/photos/c.txt",
       saveAssetIsOffline sTxt 12 false, []⟩ := by
  exact (c10_mark_online_survives_unsupported envTxt sTxt
    ⟨1, 2, "/data/photos/c.txt", false⟩ userW "/data/photos" assetTxt ⟨300⟩
    (by decide) (by decide) (by decide) (by decide) (by decide) (by decide)
    (by decide)).trans (by decide)

/-- Claim C5: `handleDeleteLibrary` returns failure when the library
(soft-deleted included) is absent; otherwise it queues one
asset-deletion job (external-origin flag set) per owned asset, hard
deletes the row exactly when the library holds zero assets, and leaves
the state untouched otherwise; `handleQueueCleanup` re-enqueues a
`LIBRARY_DELETE` job for every library still soft-deleted. -/
theorem c5_library_deletion_convergence :
    ∀ s job,
      (getLibrary s job.id true = none → handleDeleteLibrary s job = ⟨.ok false, s, []⟩) ∧
      (∀ library, getLibrary s job.id true = some library →
        (handleDeleteLibrary s job).result = .ok true ∧
        (handleDeleteLibrary s job).jobs =
          (getAssetsByLibraryId s job.id).map (fun a => Job.assetDeletion a.id true) ∧
        (getAssetsByLibraryId s job.id = [] →
          (handleDeleteLibrary s job).state = deleteLibraryRow s job.id) ∧
        (getAssetsByLibraryId s job.id ≠ [] → (handleDeleteLibrary s job).state = s)) ∧
      (handleQueueCleanup s).jobs =
        (getAllDeletedLibraries s).map (fun l => Job.libraryDelete l.id) := by
  intro s job
  refine ⟨fun hNone => by simp [handleDeleteLibrary, hNone], fun library hLib => ?_, rfl⟩
  by_cases hA : getAssetsByLibraryId s job.id = [] <;>
    simp [handleDeleteLibrary, hLib, hA, List.length_eq_zero]

/-- Claim C5 witness: on the soft-deleted library 9 with one remaining
asset, the handler queues its deletion job but keeps the row; with zero
assets the row is hard-deleted; an unknown id fails; the cleanup sweep
re-enqueues library 9. -/
theorem c5_library_deletion_convergence_witness :
    (handleDeleteLibrary sC5 ⟨9⟩).jobs = [Job.assetDeletion 13 true] ∧
    (handleDeleteLibrary sC5 ⟨9⟩).state = sC5 ∧
    (handleDeleteLibrary sC5e ⟨9⟩).state = deleteLibraryRow sC5e 9 ∧
    handleDeleteLibrary sC5 ⟨42⟩ = ⟨.ok false, sC5, []⟩ ∧
    (handleQueueCleanup sC5).jobs = [Job.libraryDelete 9] := by
  refine ⟨?_, ?_, ?_, ?_, ?_⟩
  · exact ((c5_library_deletion_convergence sC5 ⟨9⟩).2.1 libDel (by decide)).2.1.trans
      (by decide)
  · exact ((c5_library_deletion_convergence sC5 ⟨9⟩).2.1 libDel (by decide)).2.2.2
      (by decide)
  · exact ((c5_library_deletion_convergence sC5e ⟨9⟩).2.1 libDel (by decide)).2.2.1
      (by decide)
  · exact (c5_library_deletion_convergence sC5 ⟨42⟩).1 (by decide)
  · exact (c5_library_deletion_convergence sC5 ⟨9⟩).2.2.trans (by decide)

/-- Claim C6: deleting an UPLOAD library whose owner (the requester,
which the out-of-scope access check constrains to the owner) has at
most one upload library throws the validation error, leaves the state
unchanged (no soft-delete), and queues nothing. -/
theorem c6_last_upload_library_protected :
    ∀ env s authUserId id library,
      getLibrary s id false = some library →
      library.ownerId = authUserId →
      library.libType = LibraryType.UPLOAD →
      getUploadLibraryCount s authUserId ≤ 1 →
      delete env s authUserId id = ⟨.error "Cannot delete the last upload library", s, []⟩ := by
  intro env s authUserId id library hLib hOwner hType hCount
  simp [delete, hLib, hType, hCount]

/-- Claim C6 witness: user 2 tries to delete their only UPLOAD library;
the call fails with the validation error and the state is unchanged. -/
theorem c6_last_upload_library_protected_witness :
    delete envW sC6 2 5 = ⟨.error "Cannot delete the last upload library", sC6, []⟩ := by
  exact c6_last_upload_library_protected envW sC6 2 5 libU (by decide) (by decide)
    (by decide) (by decide)

/-- Claim C7: on the import branch, a target library with `deletedAt`
set makes the handler return non-fatal `false` with no catalog write
and no job; when the target library is not soft-deleted, the asset is
created and the created record carries `isReadOnly = true` and
`isExternal = true`. -/
theorem c7_import_abort_on_deleted_library :
    (∀ env s job user root st t library d,
      getUser s job.ownerId = some user →
      user.externalPath = some root →
      matchesExternalRoot (pathNormalize root)
        (pathNormalize (pathNormalize job.assetPath)) = true →
      getAssetByLibraryAndPath s job.id (pathNormalize job.assetPath) = none →
      env.stat (pathNormalize job.assetPath) = some st →
      classify (pathNormalize job.assetPath) = some t →
      getLibrary s job.id true = some library →
      library.deletedAt = some d →
      handleAssetRefresh env s job = ⟨.ok false, s, []⟩) ∧
    (∀ env s job user root st t library,
      getUser s job.ownerId = some user →
      user.externalPath = some root →
      matchesExternalRoot (pathNormalize root)
        (pathNormalize (pathNormalize job.assetPath)) = true →
      getAssetByLibraryAndPath s job.id (pathNormalize job.assetPath) = none →
      env.stat (pathNormalize job.assetPath) = some st →
      classify (pathNormalize job.assetPath) = some t →
      getLibrary s job.id true = some library →
      library.deletedAt = none →
      handleAssetRefresh env s job =
        ⟨.ok true, (createAsset s (importedAssetRecord env job st t)).1,
         Job.metadataExtraction s.nextAssetId ::
           (if t = AssetType.VIDEO then [Job.videoConversion s.nextAssetId] else [])⟩ ∧
      (importedAssetRecord env job st t).isReadOnly = true ∧
      (importedAssetRecord env job st t).isExternal = true) := by
  constructor
  · intro env s job user root st t library d hUser hRoot hMatch hExisting hStat hCls hLib hDel
    simp only [handleAssetRefresh, hUser, hRoot, hMatch, hExisting, hStat, hCls, hLib, hDel]
    simp
  · intro env s job user root st t library hUser hRoot hMatch hExisting hStat hCls hLib hDel
    refine ⟨?_, rfl, rfl⟩
    simp only [handleAssetRefresh, hUser, hRoot, hMatch, hExisting, hStat, hCls, hLib, hDel]
    simp [createAsset]

/-- Claim C7 witness: importing `/data/photos/a.jpg` into the
soft-deleted library is a non-fatal no-op; importing it into the live
empty library creates the read-only external record. -/
theorem c7_import_abort_on_deleted_library_witness :
    handleAssetRefresh envW sC7 ⟨1, 2, "/data/photos/a.jpg", false⟩ = ⟨.ok false, sC7, []⟩ ∧
    handleAssetRefresh envW sImp ⟨1, 2, "/data/photos/a.jpg", false⟩ =
      ⟨.ok true,
       (createAsset sImp
         (importedAssetRecord envW ⟨1, 2, "/data/photos/a.jpg", false⟩ ⟨100⟩
           AssetType.IMAGE)).1,
       [Job.metadataExtraction 30]⟩ := by
  constructor
  · exact c7_import_abort_on_deleted_library.1 envW sC7 ⟨1, 2, "/data/photos/a.jpg", false⟩
      userW "/data/photos" ⟨100⟩ AssetType.IMAGE { libW with deletedAt := some 40 } 40
      (by decide) (by decide) (by decide) (by decide) (by decide) (by decide) (by decide)
      (by decide)
  · exact ((c7_import_abort_on_deleted_library.2 envW sImp
      ⟨1, 2, "/data/photos/a.jpg", false⟩ userW "/data/photos" ⟨100⟩ AssetType.IMAGE libW
      (by decide) (by decide) (by decide) (by decide) (by decide) (by decide) (by decide)
      (by decide)).1).trans (by decide)

/-- Claim C1 counterexample: the containment check is the anchored
regex `^root`, a raw string-prefix test on normalized paths, not
directory containment.  With external root `/data/ph`, the path
`/data/photos2/evil.jpg` does not lie under the root directory, yet the
scan emits a per-path job for it and `handleAssetRefresh` creates an
asset record for it — refuting "no asset record is ever created for a
path outside the user's external root". -/
theorem c1_counterexample :
    liesUnder (pathNormalize "/data/ph") (pathNormalize "/data/photos2/evil.jpg") = false ∧
    (handleQueueAssetRefresh envPh sPh ⟨7, false, false⟩).jobs =
      [Job.libraryScanAsset 7 "/data/photos2/evil.jpg" 4 false] ∧
    (handleAssetRefresh envPh sPh ⟨7, 4, "/data/photos2/evil.jpg", false⟩).result =
      .ok true ∧
    ((handleAssetRefresh envPh sPh ⟨7, 4, "/data/photos2/evil.jpg", false⟩).state.assets.map
      (fun a => a.originalPath)) = ["/data/photos2/evil.jpg"] ∧
    sPh.assets = [] := by
  decide

/-- Claim C1 amended: containment is enforced as a string-prefix check
on normalized paths.  Every per-path job emitted by the scan carries
the normalization of a crawled path that passed the anchored prefix
test against the normalized external root, and `handleAssetRefresh`
rejects any path failing that prefix test as a no-op `false` with no
catalog write and no job. -/
theorem c1_prefix_containment :
    (∀ env s job library user root,
      getLibrary s job.id false = some library →
      library.libType = LibraryType.EXTERNAL →
      getUser s library.ownerId = some user →
      user.externalPath = some root →
      ∀ j ∈ (handleQueueAssetRefresh env s job).jobs,
        ∀ lid p oid f, j = Job.libraryScanAsset lid p oid f →
          ∃ q, q ∈ crawledAssetPathsOf env library root ∧ p = pathNormalize q ∧
            matchesExternalRoot (pathNormalize root) q = true) ∧
    (∀ env s job user root,
      getUser s job.ownerId = some user →
      user.externalPath = some root →
      matchesExternalRoot (pathNormalize root)
        (pathNormalize (pathNormalize job.assetPath)) = false →
      handleAssetRefresh env s job = ⟨.ok false, s, []⟩) := by
  constructor
  · intro env s job library user root hLib hType hUser hRoot j hj lid p oid f hEq
    simp only [handleQueueAssetRefresh, hLib, hType, hUser, hRoot] at hj
    simp only [if_pos, ne_eq, not_true_eq_false, if_false, List.mem_append] at hj
    rcases hj with hj | hj
    · rcases List.mem_map.1 hj with ⟨a, _, rfl⟩
      exact absurd hEq (by simp)
    · rcases hj with hj
      by_cases hLen : 0 < (crawledAssetPathsOf env library root).length
      · rw [if_pos hLen] at hj
        by_cases hFlags : (job.refreshAllFiles || job.refreshModifiedFiles) = true
        · rw [if_pos hFlags] at hj
          rcases List.mem_map.1 hj with ⟨q, hq, rfl⟩
          have hp : p = pathNormalize q := by
            injection hEq with h1 h2; exact h2.symm
          have hq2 : q ∈ ((env.crawl library.importPaths
              library.exclusionPatterns).map pathNormalize).filter
                (fun assetPath => matchesExternalRoot (pathNormalize root) assetPath) := hq
          exact ⟨q, hq, hp, (List.mem_filter.1 hq2).2⟩
        · rw [if_neg hFlags] at hj
          rcases List.mem_map.1 hj with ⟨q, hq, rfl⟩
          have hqc : q ∈ crawledAssetPathsOf env library root :=
            (List.mem_filter.1 hq).1
          have hp : p = pathNormalize q := by
            injection hEq with h1 h2; exact h2.symm
          have hq2 : q ∈ ((env.crawl library.importPaths
              library.exclusionPatterns).map pathNormalize).filter
                (fun assetPath => matchesExternalRoot (pathNormalize root) assetPath) := hqc
          exact ⟨q, hqc, hp, (List.mem_filter.1 hq2).2⟩
      · rw [if_neg hLen] at hj
        exact absurd hj (List.not_mem_nil j)
  · intro env s job user root hUser hRoot hMatch
    simp only [handleAssetRefresh, hUser, hRoot, hMatch]
    simp

/-- Claim C1 amended witness: `/outside/x.jpg` fails the prefix test
against root `/data/photos` and is rejected by `handleAssetRefresh`
with no state change and no job. -/
theorem c1_prefix_containment_witness :
    handleAssetRefresh envW sW ⟨1, 2, "/outside/x.jpg", false⟩ = ⟨.ok false, sW, []⟩ := by
  exact c1_prefix_containment.2 envW sW ⟨1, 2, "/outside/x.jpg", false⟩ userW "/data/photos"
    (by decide) (by decide) (by decide)

/-- Claim C8 counterexample: the claim says every `scanLibrary`
invocation persists `refreshedAt = now` regardless of outcome, but the
early validation exits skip the write: with the library present (and
EXTERNAL) while its owner has no external path, the handler returns
`false` and the state — including the library's `refreshedAt`, still
`none` — is completely unchanged. -/
theorem c8_counterexample :
    (handleQueueAssetRefresh envW sC8 ⟨1, false, false⟩).state = sC8 ∧
    sC8.libraries.map (fun l => l.refreshedAt) = [none] ∧
    (handleQueueAssetRefresh envW sC8 ⟨1, false, false⟩).result = .ok false := by
  decide

/-- Claim C8 amended: `handleQueueAssetRefresh` never touches asset or
user rows in any case; and once the initial validation passes (library
found, EXTERNAL, owner has an external path) its entire state effect is
the single `refreshedAt := now` library update, with result `true` —
the early validation failures return `false` with no write at all. -/
theorem c8_scan_frame :
    (∀ env s job,
      (handleQueueAssetRefresh env s job).state.assets = s.assets ∧
      (handleQueueAssetRefresh env s job).state.users = s.users) ∧
    (∀ env s job library user root,
      getLibrary s job.id false = some library →
      library.libType = LibraryType.EXTERNAL →
      getUser s library.ownerId = some user →
      user.externalPath = some root →
      (handleQueueAssetRefresh env s job).state =
        updateLibraryRefreshedAt s job.id env.now ∧
      (handleQueueAssetRefresh env s job).result = .ok true) := by
  constructor
  · intro env s job
    unfold handleQueueAssetRefresh
    constructor <;> (repeat' split) <;> simp [updateLibraryRefreshedAt]
  · intro env s job library user root hLib hType hUser hRoot
    simp only [handleQueueAssetRefresh, hLib, hType, hUser, hRoot]
    simp

/-- Claim C8 amended witness: a validated scan's only state effect is
the `refreshedAt` write. -/
theorem c8_scan_frame_witness :
    (handleQueueAssetRefresh envW sW ⟨1, false, false⟩).state =
      updateLibraryRefreshedAt sW 1 50 ∧
    (handleQueueAssetRefresh envW sW ⟨1, false, false⟩).result = .ok true := by
  exact c8_scan_frame.2 envW sW ⟨1, false, false⟩ libW userW "/data/photos"
    (by decide) (by decide) (by decide) (by decide)

/-- Claim C9: `handleAssetRefresh` queues either nothing (no-op,
rejection and error paths) or exactly one metadata-extraction job for
the processed asset id, together with exactly one video-conversion job
precisely when the file classifies as VIDEO; a completed refresh queues
them for the existing id, a completed import for the fresh id. -/
theorem c9_downstream_fanout :
    (∀ env s job,
      fanoutOk (classify (pathNormalize job.assetPath))
        (handleAssetRefresh env s job).jobs = true) ∧
    (∀ env s job user root existing st,
      getUser s job.ownerId = some user →
      user.externalPath = some root →
      matchesExternalRoot (pathNormalize root)
        (pathNormalize (pathNormalize job.assetPath)) = true →
      getAssetByLibraryAndPath s job.id (pathNormalize job.assetPath) = some existing →
      env.stat (pathNormalize job.assetPath) = some st →
      existing.isOffline = false →
      st.mtime = existing.fileModifiedAt →
      job.force = false →
      (handleAssetRefresh env s job).jobs = []) ∧
    (∀ env s job user root existing st t,
      getUser s job.ownerId = some user →
      user.externalPath = some root →
      matchesExternalRoot (pathNormalize root)
        (pathNormalize (pathNormalize job.assetPath)) = true →
      getAssetByLibraryAndPath s job.id (pathNormalize job.assetPath) = some existing →
      env.stat (pathNormalize job.assetPath) = some st →
      existing.isOffline = false →
      st.mtime ≠ existing.fileModifiedAt →
      classify (pathNormalize job.assetPath) = some t →
      handleAssetRefresh env s job =
        ⟨.ok true, updateAssetTimes s existing.id st.mtime,
         Job.metadataExtraction existing.id ::
           (if t = AssetType.VIDEO then [Job.videoConversion existing.id] else [])⟩) ∧
    (∀ env s job user root st t,
      getUser s job.ownerId = some user →
      user.externalPath = some root →
      matchesExternalRoot (pathNormalize root)
        (pathNormalize (pathNormalize job.assetPath)) = true →
      getAssetByLibraryAndPath s job.id (pathNormalize job.assetPath) = none →
      env.stat (pathNormalize job.assetPath) = some st →
      classify (pathNormalize job.assetPath) = some t →
      (∀ l, getLibrary s job.id true = some l → l.deletedAt = none) →
      (handleAssetRefresh env s job).jobs =
        Job.metadataExtraction s.nextAssetId ::
          (if t = AssetType.VIDEO then [Job.videoConversion s.nextAssetId] else [])) := by
  refine ⟨?_, ?_, ?_, ?_⟩
  · intro env s job
    simp only [handleAssetRefresh]
    cases hU : getUser s job.ownerId with
    | none => simp [hU, fanoutOk]
    | some user =>
      cases hE : user.externalPath with
      | none => simp [hU, hE, fanoutOk]
      | some root =>
        by_cases hM : matchesExternalRoot (pathNormalize root)
            (pathNormalize (pathNormalize job.assetPath)) = true
        · cases hStat : env.stat (pathNormalize job.assetPath) with
          | none =>
            cases hEx : getAssetByLibraryAndPath s job.id (pathNormalize job.assetPath) <;>
              simp_all [fanoutOk]
          | some st =>
            cases hEx : getAssetByLibraryAndPath s job.id (pathNormalize job.assetPath) with
            | none =>
              cases hCls : classify (pathNormalize job.assetPath) with
              | none => simp_all [fanoutOk]
              | some t =>
                cases hL : getLibrary s job.id true with
                | none => cases t <;> simp_all [fanoutOk, createAsset]
                | some l =>
                  by_cases hD : l.deletedAt = none
                  · cases t <;> simp_all [fanoutOk, createAsset]
                  · simp_all [fanoutOk]
            | some existing =>
              cases hCls : classify (pathNormalize job.assetPath) with
              | none =>
                by_cases hF : job.force = true <;>
                  by_cases hMt : st.mtime = existing.fileModifiedAt <;>
                  by_cases hO : existing.isOffline = true <;>
                  simp_all [fanoutOk] <;>
                  rw [show (st.mtime != existing.fileModifiedAt) = true from by simpa using hMt] <;>
                  simp [fanoutOk]
              | some t =>
                cases t <;>
                  (by_cases hF : job.force = true <;>
                    by_cases hMt : st.mtime = existing.fileModifiedAt <;>
                    by_cases hO : existing.isOffline = true <;>
                    simp_all [fanoutOk] <;>
                    rw [show (st.mtime != existing.fileModifiedAt) = true from by simpa using hMt] <;>
                    simp [fanoutOk])
        · simp_all [fanoutOk]
  · intro env s job user root existing st hUser hRoot hMatch hExisting hStat hOnline
      hMtime hForce
    simp only [handleAssetRefresh, hUser, hRoot, hMatch, hExisting, hStat, hOnline, hMtime,
      hForce]
    simp
  · intro env s job user root existing st t hUser hRoot hMatch hExisting hStat hOnline
      hMtime hCls
    have hBne : (st.mtime != existing.fileModifiedAt) = true := by
      simpa using hMtime
    simp only [handleAssetRefresh, hUser, hRoot, hMatch, hExisting, hStat, hOnline, hBne,
      hCls]
    simp
  · intro env s job user root st t hUser hRoot hMatch hExisting hStat hCls hDel
    cases hL : getLibrary s job.id true with
    | none =>
      simp only [handleAssetRefresh, hUser, hRoot, hMatch, hExisting, hStat, hCls, hL]
      simp [createAsset]
    | some l =>
      have hld : l.deletedAt = none := hDel l hL
      simp only [handleAssetRefresh, hUser, hRoot, hMatch, hExisting, hStat, hCls, hL, hld]
      simp [createAsset]

/-- Claim C9 witness: refreshing the modified `/data/photos/b.mp4`
queues metadata extraction and video conversion for asset 11; importing
it fresh queues both for the new id 30; importing `/data/photos/a.jpg`
fresh queues only metadata extraction for id 30. -/
theorem c9_downstream_fanout_witness :
    handleAssetRefresh envMod sW2 ⟨1, 2, "/data/photos/b.mp4", false⟩ =
      ⟨.ok true, updateAssetTimes sW2 11 201,
       [Job.metadataExtraction 11, Job.videoConversion 11]⟩ ∧
    (handleAssetRefresh envW sImp ⟨1, 2, "/data/photos/b.mp4", false⟩).jobs =
      [Job.metadataExtraction 30, Job.videoConversion 30] ∧
    (handleAssetRefresh envW sImp ⟨1, 2, "/data/photos/a.jpg", false⟩).jobs =
      [Job.metadataExtraction 30] := by
  refine ⟨?_, ?_, ?_⟩
  · exact (c9_downstream_fanout.2.2.1 envMod sW2 ⟨1, 2, "/data/photos/b.mp4", false⟩ userW
      "/data/photos" assetB ⟨201⟩ AssetType.VIDEO (by decide) (by decide) (by decide)
      (by decide) (by decide) (by decide) (by decide) (by decide)).trans (by decide)
  · exact (c9_downstream_fanout.2.2.2 envW sImp ⟨1, 2, "/data/photos/b.mp4", false⟩ userW
      "/data/photos" ⟨200⟩ AssetType.VIDEO (by decide) (by decide) (by decide) (by decide)
      (by decide) (by decide)
      (by
        intro l hl
        have h : some libW = some l := hl
        injection h with h2
        subst h2
        rfl)).trans (by decide)
  · exact (c9_downstream_fanout.2.2.2 envW sImp ⟨1, 2, "/data/photos/a.jpg", false⟩ userW
      "/data/photos" ⟨100⟩ AssetType.IMAGE (by decide) (by decide) (by decide) (by decide)
      (by decide) (by decide)
      (by
        intro l hl
        have h : some libW = some l := hl
        injection h with h2
        subst h2
        rfl)).trans (by decide)
